import Mathlib

/-!
Verification of the binlog column-value decoder (`src/value/binlog.rs`,
`BinlogValue::deserialize` and `BinlogValue::into_owned`) of the
`rust_mysql_common` repository.

The row buffer and the metadata slice are embedded as `List Nat`, each element
one byte.  The mutable `ParseBuf` cursor is embedded by explicit state passing:
every read returns the value together with the remaining suffix of the buffer,
so "cursor position" is observable as the remaining list.  Machine-integer
casts (`as u8`, `as u16`) are embedded as explicit `% 256` / `% 65536`.

Code of the repository that is not part of the given sources (the `ParseBuf`
reader, the `ColumnType` enumeration with its `TryFrom<u8>`, the generic
scalar decoder `Value::deserialize_bin`, the temporal codec, the decimal codec
and the two JSON codecs) is modelled from the specification; each such
definition carries a doc comment starting with `Modelled from the spec:`.
-/

/-- Modelled from the spec: the enumerated MySQL wire type codes
(`constants.rs::ColumnType` is not among the given sources).  Constructor
names and discriminants follow the MySQL binlog protocol type codes that the
spec refers to in §3 and §4.2. -/
inductive ColumnType where
  | MYSQL_TYPE_DECIMAL
  | MYSQL_TYPE_TINY
  | MYSQL_TYPE_SHORT
  | MYSQL_TYPE_LONG
  | MYSQL_TYPE_FLOAT
  | MYSQL_TYPE_DOUBLE
  | MYSQL_TYPE_NULL
  | MYSQL_TYPE_TIMESTAMP
  | MYSQL_TYPE_LONGLONG
  | MYSQL_TYPE_INT24
  | MYSQL_TYPE_DATE
  | MYSQL_TYPE_TIME
  | MYSQL_TYPE_DATETIME
  | MYSQL_TYPE_YEAR
  | MYSQL_TYPE_NEWDATE
  | MYSQL_TYPE_VARCHAR
  | MYSQL_TYPE_BIT
  | MYSQL_TYPE_TIMESTAMP2
  | MYSQL_TYPE_DATETIME2
  | MYSQL_TYPE_TIME2
  | MYSQL_TYPE_TYPED_ARRAY
  | MYSQL_TYPE_UNKNOWN
  | MYSQL_TYPE_JSON
  | MYSQL_TYPE_NEWDECIMAL
  | MYSQL_TYPE_ENUM
  | MYSQL_TYPE_SET
  | MYSQL_TYPE_TINY_BLOB
  | MYSQL_TYPE_MEDIUM_BLOB
  | MYSQL_TYPE_LONG_BLOB
  | MYSQL_TYPE_BLOB
  | MYSQL_TYPE_VAR_STRING
  | MYSQL_TYPE_STRING
  | MYSQL_TYPE_GEOMETRY
  deriving DecidableEq

/-- Modelled from the spec: `ColumnType::try_from(u8)` (not among the given
sources), mapping a wire byte to the type code it denotes, `none` when the
byte maps to no known type code. -/
def ColumnType.tryFrom (b : Nat) : Option ColumnType :=
  if b = 0 then some .MYSQL_TYPE_DECIMAL
  else if b = 1 then some .MYSQL_TYPE_TINY
  else if b = 2 then some .MYSQL_TYPE_SHORT
  else if b = 3 then some .MYSQL_TYPE_LONG
  else if b = 4 then some .MYSQL_TYPE_FLOAT
  else if b = 5 then some .MYSQL_TYPE_DOUBLE
  else if b = 6 then some .MYSQL_TYPE_NULL
  else if b = 7 then some .MYSQL_TYPE_TIMESTAMP
  else if b = 8 then some .MYSQL_TYPE_LONGLONG
  else if b = 9 then some .MYSQL_TYPE_INT24
  else if b = 10 then some .MYSQL_TYPE_DATE
  else if b = 11 then some .MYSQL_TYPE_TIME
  else if b = 12 then some .MYSQL_TYPE_DATETIME
  else if b = 13 then some .MYSQL_TYPE_YEAR
  else if b = 14 then some .MYSQL_TYPE_NEWDATE
  else if b = 15 then some .MYSQL_TYPE_VARCHAR
  else if b = 16 then some .MYSQL_TYPE_BIT
  else if b = 17 then some .MYSQL_TYPE_TIMESTAMP2
  else if b = 18 then some .MYSQL_TYPE_DATETIME2
  else if b = 19 then some .MYSQL_TYPE_TIME2
  else if b = 20 then some .MYSQL_TYPE_TYPED_ARRAY
  else if b = 243 then some .MYSQL_TYPE_UNKNOWN
  else if b = 245 then some .MYSQL_TYPE_JSON
  else if b = 246 then some .MYSQL_TYPE_NEWDECIMAL
  else if b = 247 then some .MYSQL_TYPE_ENUM
  else if b = 248 then some .MYSQL_TYPE_SET
  else if b = 249 then some .MYSQL_TYPE_TINY_BLOB
  else if b = 250 then some .MYSQL_TYPE_MEDIUM_BLOB
  else if b = 251 then some .MYSQL_TYPE_LONG_BLOB
  else if b = 252 then some .MYSQL_TYPE_BLOB
  else if b = 253 then some .MYSQL_TYPE_VAR_STRING
  else if b = 254 then some .MYSQL_TYPE_STRING
  else if b = 255 then some .MYSQL_TYPE_GEOMETRY
  else none

/-- Modelled from the spec: the library's general-purpose scalar value
(`value::Value`, not among the given sources).  Floating values carry their
raw little-endian bit pattern, since only the byte-level behaviour of the
decoder is specified. -/
inductive Value where
  | Int (i : ℤ)
  | UInt (u : Nat)
  | Float (bits : Nat)
  | Double (bits : Nat)
  | Bytes (bs : List Nat)
  | Date (year month day hour minute second micro : Nat)
  | Time (negative : Bool) (days hours minutes seconds micro : Nat)
  deriving DecidableEq

/-- Modelled from the spec §9: the borrowed-versus-owned duality of a byte
range.  `borrowed` references the source buffer, `owned` is an independent
deep copy with the same content. -/
inductive Cow where
  | borrowed (bs : List Nat)
  | owned (bs : List Nat)
  deriving DecidableEq

/-- The byte content of a possibly-borrowed byte range. -/
def Cow.data : Cow → List Nat
  | .borrowed bs => bs
  | .owned bs => bs

/-- Whether the byte range is an independent copy. -/
def Cow.isOwned : Cow → Bool
  | .borrowed _ => false
  | .owned _ => true

/-- Deep-copy a byte range: the owned version with the same content. -/
def Cow.intoOwned : Cow → Cow
  | .borrowed bs => .owned bs
  | .owned bs => .owned bs

/-- Modelled from the spec §3: a parsed JSON document in binary-tree form
(`jsonb::Value`, an external collaborator), borrowing from or owning the
source bytes.  The tree structure is opaque to this core, so the model keeps
the underlying byte range. -/
structure JsonbValue where
  raw : Cow
  deriving DecidableEq

/-- Modelled from the spec: `jsonb::Value::into_owned`, deep-copying the
referenced bytes. -/
def JsonbValue.intoOwned (j : JsonbValue) : JsonbValue :=
  ⟨j.raw.intoOwned⟩

/-- Modelled from the spec §3: one partial-update diff record
(`jsondiff::JsonDiff`, an external collaborator), borrowing from or owning
the source bytes. -/
structure JsonDiff where
  payload : Cow
  deriving DecidableEq

/-- Modelled from the spec: `JsonDiff::into_owned`, deep-copying the
referenced bytes. -/
def JsonDiff.intoOwned (d : JsonDiff) : JsonDiff :=
  ⟨d.payload.intoOwned⟩

/-- `BinlogValue` (binlog.rs lines 22-29): value of a binlog event. -/
inductive BinlogValue where
  | Value (v : Value)
  | Jsonb (j : JsonbValue)
  | JsonDiff (ds : List JsonDiff)
  deriving DecidableEq

/-- `BinlogValue::into_owned` (binlog.rs lines 33-41). -/
def BinlogValue.intoOwned : BinlogValue → BinlogValue
  | .Value x => .Value x
  | .Jsonb x => .Jsonb x.intoOwned
  | .JsonDiff x => .JsonDiff (x.map JsonDiff.intoOwned)

/-- The kind of a decode failure: `truncated` embeds the `UnexpectedEof`
error built by `misc::unexpected_buf_eof`, `invalidData` embeds an
`io::ErrorKind::InvalidData` error with its message. -/
inductive DecodeError where
  | truncated
  | invalidData (msg : String)
  deriving DecidableEq

/-- Outcome of one call to `BinlogValue::deserialize`.  The `rest` component
is the remaining (unconsumed) suffix of the row buffer, i.e. the cursor
position after the call — also in the error case, since the Rust cursor is a
`&mut ParseBuf` that is not rewound on failure.  `panic` marks an
out-of-bounds metadata index, which in Rust aborts instead of returning. -/
inductive DecodeResult where
  | ok (v : BinlogValue) (rest : List Nat)
  | err (e : DecodeError) (rest : List Nat)
  | panic
  deriving DecidableEq

/-- Modelled from the spec §6/§9: `ParseBuf::checked_eat(n)` — take the next
`n` bytes and advance the cursor, `none` (without consuming) when fewer than
`n` bytes remain. -/
def checkedEat (n : Nat) (buf : List Nat) : Option (List Nat × List Nat) :=
  if n ≤ buf.length then some (buf.take n, buf.drop n) else none

/-- Little-endian value of a byte list. -/
def leVal : List Nat → Nat
  | [] => 0
  | b :: bs => b + 256 * leVal bs

/-- Big-endian value of a byte list. -/
def beVal : List Nat → Nat
  | [] => 0
  | b :: bs => b * 256 ^ bs.length + beVal bs

/-- Modelled from the spec: the `ParseBuf::checked_eat_u8 / _u16_le / _u24_le
/ _u32_le / _u64_le` family — read a `k`-byte little-endian unsigned value
and advance the cursor, `none` when fewer than `k` bytes remain. -/
def checkedEatUleN (k : Nat) (buf : List Nat) : Option (Nat × List Nat) :=
  match checkedEat k buf with
  | none => none
  | some (bs, rest) => some (leVal bs, rest)

/-- Sign extension of a `bits`-wide unsigned value, embedding
`checked_eat_i24_le` and the signed scalar reads. -/
def signExt (bits v : Nat) : ℤ :=
  if v < 2 ^ (bits - 1) then (v : ℤ) else (v : ℤ) - 2 ^ bits

/-- Modelled from the spec: the panicking `ParseBuf::eat_u16_le` used on the
metadata slice in the STRING resolver (binlog.rs line 74); `none` embeds the
out-of-bounds panic raised when the metadata holds fewer than two bytes. -/
def eatU16le : List Nat → Option Nat
  | b0 :: b1 :: _ => some (b0 + 256 * b1)
  | _ => none

/-- Decimal-digit list of `n`, most significant first (`fuel`-structured for
kernel reducibility; `fuel = n + 1` always suffices). -/
def decDigits (fuel n : Nat) : List Nat :=
  match fuel with
  | 0 => []
  | f + 1 => if n < 10 then [n] else decDigits f (n / 10) ++ [n % 10]

/-- ASCII bytes of the decimal string of `n`, embedding `to_string()` on
integers. -/
def natToDecimalBytes (n : Nat) : List Nat :=
  (decDigits (n + 1) n).map (fun d => 48 + d)

/-- ASCII bytes of `format!("\x7b:06\x7d", u)`: the decimal string of `u`
left-padded with zeros to six digits. -/
def zeroPad6 (u : Nat) : List Nat :=
  List.replicate (6 - (natToDecimalBytes u).length) 48 ++ natToDecimalBytes u

/-- Read state plus value: the common shape `value-or-truncation` of one
checked little-endian read followed by wrapping the value (the
`checked_eat_*().ok_or_else(unexpected_buf_eof)?` pattern of binlog.rs). -/
def readMap (k : Nat) (g : Nat → BinlogValue) (buf : List Nat) : DecodeResult :=
  match checkedEatUleN k buf with
  | none => .err .truncated buf
  | some (v, rest) => .ok (g v) rest

/-- The `checked_eat(n).ok_or_else(unexpected_buf_eof)?` pattern wrapping the
raw bytes into `Value::Bytes`. -/
def readBytes (k : Nat) (buf : List Nat) : DecodeResult :=
  match checkedEat k buf with
  | none => .err .truncated buf
  | some (bs, rest) => .ok (.Value (.Bytes bs)) rest

/-- A `w`-byte little-endian length prefix followed by that many data bytes
(the BLOB / VARCHAR / STRING row-buffer shape of §4.2). -/
def lenPrefixedRead (w : Nat) (buf : List Nat) : DecodeResult :=
  match checkedEatUleN w buf with
  | none => .err .truncated buf
  | some (nbytes, r1) => readBytes nbytes r1

/-- Modelled from the spec §2/§6: external Temporal Codec,
`my_timestamp_from_binary(buf, dec)` — a four-byte big-endian seconds value
followed by `(dec + 1) / 2` fractional bytes; only its byte consumption and
truncation behaviour are relied upon by the claims. -/
def myTimestampFromBinary (buf : List Nat) (dec : Nat) :
    Option ((Nat × Nat) × List Nat) :=
  match checkedEat 4 buf with
  | none => none
  | some (secBs, r1) =>
    match checkedEat ((dec + 1) / 2) r1 with
    | none => none
    | some (fracBs, r2) => some ((beVal secBs, beVal fracBs), r2)

/-- Modelled from the spec §2/§6: external Temporal Codec,
`my_datetime_packed_from_binary(buf, dec)` — a five-byte big-endian packed
datetime followed by `(dec + 1) / 2` fractional bytes. -/
def myDatetimePackedFromBinary (buf : List Nat) (dec : Nat) :
    Option ((Nat × Nat) × List Nat) :=
  match checkedEat 5 buf with
  | none => none
  | some (bs, r1) =>
    match checkedEat ((dec + 1) / 2) r1 with
    | none => none
    | some (fracBs, r2) => some ((beVal bs, beVal fracBs), r2)

/-- Modelled from the spec §2/§6: external Temporal Codec,
`my_time_packed_from_binary(buf, dec)` — a three-byte big-endian packed time
followed by `(dec + 1) / 2` fractional bytes. -/
def myTimePackedFromBinary (buf : List Nat) (dec : Nat) :
    Option ((Nat × Nat) × List Nat) :=
  match checkedEat 3 buf with
  | none => none
  | some (bs, r1) =>
    match checkedEat ((dec + 1) / 2) r1 with
    | none => none
    | some (fracBs, r2) => some ((beVal bs, beVal fracBs), r2)

/-- Modelled from the spec §2: `misc::datetime_from_packed` — unpack the
packed datetime fields (second 6 bits, minute 6, hour 5, day 5, year*13+month
17) into the calendar value. -/
def datetimeFromPacked (v usec : Nat) : Value :=
  .Date ((v >>> 22 &&& 0x1FFFF) / 13) ((v >>> 22 &&& 0x1FFFF) % 13)
    (v >>> 17 &&& 31) (v >>> 12 &&& 31) (v >>> 6 &&& 63) (v &&& 63) usec

/-- Modelled from the spec §2: `misc::time_from_packed` — unpack the packed
time fields (second 6 bits, minute 6, hour 10). -/
def timeFromPacked (v usec : Nat) : Value :=
  .Time false 0 (v >>> 12 &&& 1023) (v >>> 6 &&& 63) (v &&& 63) usec

/-- Modelled from the spec §2/§6: byte width of the external Decimal Codec's
binary encoding for the given precision and scale (nine decimal digits per
four bytes, with a shorter tail group). -/
def dig2bytes (d : Nat) : Nat :=
  [0, 1, 1, 2, 2, 3, 3, 4, 4, 4].getD d 0

/-- Modelled from the spec §2/§6: total byte width consumed by
`decimal::Decimal::read_bin(buf, precision, scale, false)`. -/
def decimalBinSize (precision scale : Nat) : Nat :=
  let intg := precision - scale
  let intg0 := intg / 9
  let frac0 := scale / 9
  let intg0x := intg - intg0 * 9
  let frac0x := scale - frac0 * 9
  intg0 * 4 + dig2bytes intg0x + frac0 * 4 + dig2bytes frac0x

/-- Modelled from the spec §2/§6: external Decimal Codec
`decimal::Decimal::read_bin` followed by `to_string()`; only its byte
consumption and truncation behaviour are relied upon by the claims, so the
textual rendering is abstracted to the decimal string of the raw big-endian
value. -/
def decimalReadBin (precision scale : Nat) (buf : List Nat) : DecodeResult :=
  match checkedEat (decimalBinSize precision scale) buf with
  | none => .err .truncated buf
  | some (bs, rest) => .ok (.Value (.Bytes (natToDecimalBytes (beVal bs)))) rest

/-- Modelled from the spec §4.2/§6: the generic scalar decoder
`Value::deserialize_bin` for the plain numeric types — a fixed byte width per
type, the unsigned flag selecting zero- versus sign-extension (and the `UInt`
representation for unsigned LONGLONG). -/
def deserializeBin (t : ColumnType) (unsignedFlag : Bool) (buf : List Nat) :
    DecodeResult :=
  match t with
  | .MYSQL_TYPE_TINY =>
    if unsignedFlag then readMap 1 (fun v => .Value (.Int (v : ℤ))) buf
    else readMap 1 (fun v => .Value (.Int (signExt 8 v))) buf
  | .MYSQL_TYPE_SHORT =>
    if unsignedFlag then readMap 2 (fun v => .Value (.Int (v : ℤ))) buf
    else readMap 2 (fun v => .Value (.Int (signExt 16 v))) buf
  | .MYSQL_TYPE_LONG =>
    if unsignedFlag then readMap 4 (fun v => .Value (.Int (v : ℤ))) buf
    else readMap 4 (fun v => .Value (.Int (signExt 32 v))) buf
  | .MYSQL_TYPE_LONGLONG =>
    if unsignedFlag then readMap 8 (fun v => .Value (.UInt v)) buf
    else readMap 8 (fun v => .Value (.Int (signExt 64 v))) buf
  | .MYSQL_TYPE_FLOAT => readMap 4 (fun v => .Value (.Float v)) buf
  | .MYSQL_TYPE_DOUBLE => readMap 8 (fun v => .Value (.Double v)) buf
  | _ => .err (.invalidData "Don't know how to handle column") buf

/-- Modelled from the spec §6: the external JSON diff codec
`JsonDiff::deserialize`, iterated by binlog.rs lines 171-174 until the
sub-buffer is exhausted.  Each record is modelled as self-delimiting — a
one-byte header giving the payload length followed by the payload — since
only "parse one record, consuming at least one byte, failing on truncation"
is relied upon.  `fuel` makes the loop structurally recursive;
`fuel = buf.length` always suffices because every record consumes at least
its header byte. -/
def parseDiffsLoop (fuel : Nat) (buf : List Nat) : Option (List JsonDiff) :=
  match fuel, buf with
  | _, [] => some []
  | 0, _ :: _ => none
  | f + 1, n :: rest =>
    if n ≤ rest.length then
      (parseDiffsLoop f (rest.drop n)).map
        (fun ds => (⟨Cow.borrowed (rest.take n)⟩ : JsonDiff) :: ds)
    else none

/-- Modelled from the spec §6: the external JSON tree codec
`jsonb::Value::deserialize`, parsing one full JSON tree from the sub-buffer;
the tree borrows the sub-buffer's bytes. -/
def jsonbDeserialize (sub : List Nat) : JsonbValue :=
  ⟨Cow.borrowed sub⟩

/-- The typed-array normalisation of binlog.rs lines 56-59: a
`MYSQL_TYPE_TYPED_ARRAY` placeholder is replaced by the type code stored in
the first metadata byte, keeping the placeholder when that byte maps to no
known type code.  `none` embeds the out-of-bounds panic of `col_meta[0]` on
empty metadata. -/
def resolveTypedArray (colType : ColumnType) (colMeta : List Nat) :
    Option ColumnType :=
  if colType = .MYSQL_TYPE_TYPED_ARRAY then
    match colMeta[0]? with
    | none => none
    | some b => some ((ColumnType.tryFrom b).getD colType)
  else some colType

/-- The STRING resolution of binlog.rs lines 61-76, producing the (possibly
reinterpreted) type together with the derived `length`.  `length` starts as
`0` (line 54) and is left untouched for non-STRING types.  `none` embeds the
out-of-bounds metadata panics (`col_meta[0]`, `col_meta[1]`, and the
panicking `eat_u16_le` on the metadata slice). -/
def resolveString (colType : ColumnType) (colMeta : List Nat) :
    Option (ColumnType × Nat) :=
  if colType = .MYSQL_TYPE_STRING then
    match colMeta[0]? with
    | none => none
    | some b0 =>
      if 1 ≤ b0 then
        match colMeta[1]? with
        | none => none
        | some b1 =>
          if b0 &&& 0x30 ≠ 0x30 then
            some ((ColumnType.tryFrom ((b0 % 256) ||| 0x30)).getD colType,
              b1 ||| (((b0 &&& 0x30) ^^^ 0x30) <<< 4))
          else
            some (colType, b1)
      else
        match eatU16le colMeta with
        | none => none
        | some v => some (colType, v)
  else some (colType, 0)

/-- The per-type decode table of binlog.rs lines 78-246, dispatching on the
resolved type.  `length` is the derived length from the STRING resolver. -/
def deserializeResolved (colType : ColumnType) (length : Nat)
    (colMeta : List Nat) (unsignedFlag partialFlag : Bool) (buf : List Nat) :
    DecodeResult :=
  match colType with
  | .MYSQL_TYPE_TINY | .MYSQL_TYPE_SHORT | .MYSQL_TYPE_LONG
  | .MYSQL_TYPE_LONGLONG | .MYSQL_TYPE_FLOAT | .MYSQL_TYPE_DOUBLE =>
    deserializeBin colType unsignedFlag buf
  | .MYSQL_TYPE_TIMESTAMP =>
    readMap 4 (fun v => .Value (.Int (v : ℤ))) buf
  | .MYSQL_TYPE_INT24 =>
    if unsignedFlag then readMap 3 (fun v => .Value (.Int (v : ℤ))) buf
    else readMap 3 (fun v => .Value (.Int (signExt 24 v))) buf
  | .MYSQL_TYPE_TIME =>
    readMap 3 (fun tmp => .Value (.Time false 0 (tmp / 10000 % 256)
      (tmp % 10000 / 100 % 256) (tmp % 100 % 256) 0)) buf
  | .MYSQL_TYPE_DATETIME =>
    readMap 8 (fun raw => .Value (.Date (raw / 1000000 / 10000 % 65536)
      (raw / 1000000 % 10000 / 100 % 256) (raw / 1000000 % 100 % 256)
      (raw % 1000000 / 10000 % 256) (raw % 1000000 % 10000 / 100 % 256)
      (raw % 1000000 % 100 % 256) 0)) buf
  | .MYSQL_TYPE_YEAR =>
    readMap 1 (fun y => .Value (.Bytes (natToDecimalBytes (1900 + y)))) buf
  | .MYSQL_TYPE_NEWDATE =>
    readMap 3 (fun tmp => .Value (.Date ((tmp >>> 9) % 65536)
      ((tmp >>> 5 &&& 15) % 256) ((tmp &&& 31) % 256) 0 0 0 0)) buf
  | .MYSQL_TYPE_BIT =>
    match colMeta[0]?, colMeta[1]? with
    | some m0, some m1 => readBytes ((m0 * 8 + m1 + 7) / 8) buf
    | _, _ => .panic
  | .MYSQL_TYPE_TIMESTAMP2 =>
    match colMeta[0]? with
    | none => .panic
    | some dec =>
      match myTimestampFromBinary buf dec with
      | none => .err .truncated buf
      | some ((sec, usec), rest) =>
        if usec = 0 then .ok (.Value (.Bytes (natToDecimalBytes sec))) rest
        else .ok (.Value (.Bytes
          (natToDecimalBytes sec ++ 46 :: zeroPad6 usec))) rest
  | .MYSQL_TYPE_DATETIME2 =>
    match colMeta[0]? with
    | none => .panic
    | some dec =>
      match myDatetimePackedFromBinary buf dec with
      | none => .err .truncated buf
      | some ((packed, usec), rest) =>
        .ok (.Value (datetimeFromPacked packed usec)) rest
  | .MYSQL_TYPE_TIME2 =>
    match colMeta[0]? with
    | none => .panic
    | some dec =>
      match myTimePackedFromBinary buf dec with
      | none => .err .truncated buf
      | some ((packed, usec), rest) =>
        .ok (.Value (timeFromPacked packed usec)) rest
  | .MYSQL_TYPE_JSON =>
    match checkedEatUleN 4 buf with
    | none => .err .truncated buf
    | some (len, r1) =>
      match checkedEat len r1 with
      | none => .err .truncated r1
      | some (sub, rest) =>
        if partialFlag then
          match parseDiffsLoop sub.length sub with
          | none => .err .truncated rest
          | some ds => .ok (.JsonDiff ds) rest
        else .ok (.Jsonb (jsonbDeserialize sub).intoOwned) rest
  | .MYSQL_TYPE_NEWDECIMAL =>
    match colMeta[0]?, colMeta[1]? with
    | some precision, some scale => decimalReadBin precision scale buf
    | _, _ => .panic
  | .MYSQL_TYPE_ENUM =>
    match colMeta[1]? with
    | none => .panic
    | some w =>
      if w = 1 then readMap 1 (fun v => .Value (.Int (v : ℤ))) buf
      else if w = 2 then readMap 2 (fun v => .Value (.Int (v : ℤ))) buf
      else .err (.invalidData "Unknown ENUM") buf
  | .MYSQL_TYPE_SET =>
    match colMeta[1]? with
    | none => .panic
    | some c => readBytes (c * 8) buf
  | .MYSQL_TYPE_TINY_BLOB | .MYSQL_TYPE_MEDIUM_BLOB
  | .MYSQL_TYPE_LONG_BLOB | .MYSQL_TYPE_BLOB =>
    match colMeta[0]? with
    | none => .panic
    | some w =>
      if w = 1 then lenPrefixedRead 1 buf
      else if w = 2 then lenPrefixedRead 2 buf
      else if w = 3 then lenPrefixedRead 3 buf
      else if w = 4 then lenPrefixedRead 4 buf
      else .err (.invalidData "Unknown BLOB") buf
  | .MYSQL_TYPE_VARCHAR | .MYSQL_TYPE_VAR_STRING =>
    match colMeta[0]?, colMeta[1]? with
    | some m0, some m1 =>
      if m0 ||| (m1 <<< 8) < 256 then lenPrefixedRead 1 buf
      else lenPrefixedRead 2 buf
    | _, _ => .panic
  | .MYSQL_TYPE_STRING =>
    if length < 256 then lenPrefixedRead 1 buf
    else lenPrefixedRead 2 buf
  | _ => .err (.invalidData "Don't know how to handle column") buf

/-- `BinlogValue::deserialize` (binlog.rs lines 48-247): typed-array
normalisation, STRING resolution, then the per-type decode table. -/
def deserialize (colType : ColumnType) (colMeta : List Nat)
    (unsignedFlag partialFlag : Bool) (buf : List Nat) : DecodeResult :=
  match resolveTypedArray colType colMeta with
  | none => .panic
  | some t1 =>
    match resolveString t1 colMeta with
    | none => .panic
    | some (t2, length) =>
      deserializeResolved t2 length colMeta unsignedFlag partialFlag buf

theorem checkedEat_of_le {n : Nat} {buf : List Nat} (h : n ≤ buf.length) :
    checkedEat n buf = some (buf.take n, buf.drop n) := by
  simp [checkedEat, h]

theorem checkedEat_of_lt {n : Nat} {buf : List Nat} (h : buf.length < n) :
    checkedEat n buf = none := by
  simp [checkedEat]
  omega

theorem checkedEat_append {n : Nat} {a b : List Nat} (h : a.length = n) :
    checkedEat n (a ++ b) = some (a, b) := by
  subst h
  rw [checkedEat_of_le (by simp)]
  rw [List.take_left, List.drop_left]

theorem readMap_exact (k : Nat) (g : Nat → BinlogValue) (buf : List Nat) :
    (k ≤ buf.length →
      readMap k g buf = .ok (g (leVal (buf.take k))) (buf.drop k)) ∧
    (∀ v rest, readMap k g buf = .ok v rest →
      rest = buf.drop k ∧ k ≤ buf.length) ∧
    (buf.length < k → readMap k g buf = .err .truncated buf) := by
  refine ⟨fun h => ?_, fun v rest h => ?_, fun h => ?_⟩
  · simp [readMap, checkedEatUleN, checkedEat_of_le h]
  · by_cases hk : k ≤ buf.length
    · simp [readMap, checkedEatUleN, checkedEat_of_le hk] at h
      exact ⟨h.2.symm, hk⟩
    · simp [readMap, checkedEatUleN, checkedEat_of_lt (show buf.length < k by omega)] at h
  · simp [readMap, checkedEatUleN, checkedEat_of_lt h]

theorem readBytes_exact (k : Nat) (buf : List Nat) :
    (k ≤ buf.length →
      readBytes k buf = .ok (.Value (.Bytes (buf.take k))) (buf.drop k)) ∧
    (∀ v rest, readBytes k buf = .ok v rest →
      rest = buf.drop k ∧ k ≤ buf.length) ∧
    (buf.length < k → readBytes k buf = .err .truncated buf) := by
  refine ⟨fun h => ?_, fun v rest h => ?_, fun h => ?_⟩
  · simp [readBytes, checkedEat_of_le h]
  · by_cases hk : k ≤ buf.length
    · simp [readBytes, checkedEat_of_le hk] at h
      exact ⟨h.2.symm, hk⟩
    · simp [readBytes, checkedEat_of_lt (show buf.length < k by omega)] at h
  · simp [readBytes, checkedEat_of_lt h]

theorem readMap_ne_panic (k : Nat) (g : Nat → BinlogValue) (buf : List Nat) :
    readMap k g buf ≠ .panic := by
  unfold readMap
  cases h : checkedEatUleN k buf with
  | none => simp
  | some p => cases p with | mk v rest => simp

theorem readBytes_ne_panic (k : Nat) (buf : List Nat) :
    readBytes k buf ≠ .panic := by
  unfold readBytes
  cases h : checkedEat k buf with
  | none => simp
  | some p => cases p with | mk v rest => simp

theorem lenPrefixedRead_ne_panic (w : Nat) (buf : List Nat) :
    lenPrefixedRead w buf ≠ .panic := by
  unfold lenPrefixedRead
  cases h : checkedEatUleN w buf with
  | none => simp
  | some p => cases p with | mk v rest => simpa using readBytes_ne_panic v rest

theorem readMap_ne_invalid (k : Nat) (g : Nat → BinlogValue) (buf : List Nat)
    (msg : String) (rest : List Nat) :
    readMap k g buf ≠ .err (.invalidData msg) rest := by
  unfold readMap
  cases h : checkedEatUleN k buf with
  | none => simp
  | some p => cases p with | mk v r => simp

theorem lenPrefixedRead_ne_invalid (w : Nat) (buf : List Nat)
    (msg : String) (rest : List Nat) :
    lenPrefixedRead w buf ≠ .err (.invalidData msg) rest := by
  unfold lenPrefixedRead
  cases h : checkedEatUleN w buf with
  | none => simp
  | some p =>
    cases p with
    | mk v r =>
      simp only
      unfold readBytes
      cases h2 : checkedEat v r with
      | none => simp
      | some q => cases q with | mk bs r2 => simp

/-- The byte count given by the table in §4.2 of the spec for a
(type, metadata) pair, for the entries whose row-buffer consumption is fully
determined by type and metadata; `none` for types absent from the table, for
variable-width entries (temporal codec, decimal codec), for the
length-prefixed entries (JSON, BLOB, VARCHAR, STRING, whose consumption also
depends on a length prefix in the row buffer), and for metadata without the
bytes the table reads. -/
def specTableByteCount : ColumnType → List Nat → Option Nat
  | .MYSQL_TYPE_TINY, _ => some 1
  | .MYSQL_TYPE_SHORT, _ => some 2
  | .MYSQL_TYPE_LONG, _ => some 4
  | .MYSQL_TYPE_FLOAT, _ => some 4
  | .MYSQL_TYPE_DOUBLE, _ => some 8
  | .MYSQL_TYPE_LONGLONG, _ => some 8
  | .MYSQL_TYPE_TIMESTAMP, _ => some 4
  | .MYSQL_TYPE_INT24, _ => some 3
  | .MYSQL_TYPE_TIME, _ => some 3
  | .MYSQL_TYPE_DATETIME, _ => some 8
  | .MYSQL_TYPE_YEAR, _ => some 1
  | .MYSQL_TYPE_NEWDATE, _ => some 3
  | .MYSQL_TYPE_BIT, meta =>
    match meta[0]?, meta[1]? with
    | some m0, some m1 => some ((m0 * 8 + m1 + 7) / 8)
    | _, _ => none
  | .MYSQL_TYPE_ENUM, meta =>
    match meta[1]? with
    | some w => if w = 1 then some 1 else if w = 2 then some 2 else none
    | none => none
  | .MYSQL_TYPE_SET, meta =>
    match meta[1]? with
    | some c => some (c * 8)
    | none => none
  | _, _ => none

/-- C1: for every supported resolved column type and type-appropriate
metadata whose §4.2 table entry gives a byte count `n`, a successful
deserialize advances the cursor by exactly `n` (and succeeds whenever `n`
bytes are available), and on a row buffer exactly one byte shorter than `n`
it returns the truncated-input error and never a decoded value. -/
theorem deserialize_consumes_table_count (t : ColumnType) (meta : List Nat)
    (u p : Bool) (buf : List Nat) (n : Nat)
    (h : specTableByteCount t meta = some n) :
    (n ≤ buf.length →
      ∃ v, deserialize t meta u p buf = .ok v (buf.drop n)) ∧
    (∀ v rest, deserialize t meta u p buf = .ok v rest →
      rest = buf.drop n ∧ n ≤ buf.length) ∧
    (buf.length + 1 = n → deserialize t meta u p buf = .err .truncated buf) := by
  cases t
  case MYSQL_TYPE_TINY =>
    simp only [specTableByteCount, Option.some.injEq] at h
    subst h
    cases u
    · exact ⟨fun hl => ⟨_, (readMap_exact 1 _ buf).1 hl⟩,
        fun v rest hvr => (readMap_exact 1 _ buf).2.1 v rest hvr,
        fun hl => (readMap_exact 1 _ buf).2.2 (by omega)⟩
    · exact ⟨fun hl => ⟨_, (readMap_exact 1 _ buf).1 hl⟩,
        fun v rest hvr => (readMap_exact 1 _ buf).2.1 v rest hvr,
        fun hl => (readMap_exact 1 _ buf).2.2 (by omega)⟩
  case MYSQL_TYPE_SHORT =>
    simp only [specTableByteCount, Option.some.injEq] at h
    subst h
    cases u
    · exact ⟨fun hl => ⟨_, (readMap_exact 2 _ buf).1 hl⟩,
        fun v rest hvr => (readMap_exact 2 _ buf).2.1 v rest hvr,
        fun hl => (readMap_exact 2 _ buf).2.2 (by omega)⟩
    · exact ⟨fun hl => ⟨_, (readMap_exact 2 _ buf).1 hl⟩,
        fun v rest hvr => (readMap_exact 2 _ buf).2.1 v rest hvr,
        fun hl => (readMap_exact 2 _ buf).2.2 (by omega)⟩
  case MYSQL_TYPE_LONG =>
    simp only [specTableByteCount, Option.some.injEq] at h
    subst h
    cases u
    · exact ⟨fun hl => ⟨_, (readMap_exact 4 _ buf).1 hl⟩,
        fun v rest hvr => (readMap_exact 4 _ buf).2.1 v rest hvr,
        fun hl => (readMap_exact 4 _ buf).2.2 (by omega)⟩
    · exact ⟨fun hl => ⟨_, (readMap_exact 4 _ buf).1 hl⟩,
        fun v rest hvr => (readMap_exact 4 _ buf).2.1 v rest hvr,
        fun hl => (readMap_exact 4 _ buf).2.2 (by omega)⟩
  case MYSQL_TYPE_LONGLONG =>
    simp only [specTableByteCount, Option.some.injEq] at h
    subst h
    cases u
    · exact ⟨fun hl => ⟨_, (readMap_exact 8 _ buf).1 hl⟩,
        fun v rest hvr => (readMap_exact 8 _ buf).2.1 v rest hvr,
        fun hl => (readMap_exact 8 _ buf).2.2 (by omega)⟩
    · exact ⟨fun hl => ⟨_, (readMap_exact 8 _ buf).1 hl⟩,
        fun v rest hvr => (readMap_exact 8 _ buf).2.1 v rest hvr,
        fun hl => (readMap_exact 8 _ buf).2.2 (by omega)⟩
  case MYSQL_TYPE_FLOAT =>
    simp only [specTableByteCount, Option.some.injEq] at h
    subst h
    exact ⟨fun hl => ⟨_, (readMap_exact 4 _ buf).1 hl⟩,
      fun v rest hvr => (readMap_exact 4 _ buf).2.1 v rest hvr,
      fun hl => (readMap_exact 4 _ buf).2.2 (by omega)⟩
  case MYSQL_TYPE_DOUBLE =>
    simp only [specTableByteCount, Option.some.injEq] at h
    subst h
    exact ⟨fun hl => ⟨_, (readMap_exact 8 _ buf).1 hl⟩,
      fun v rest hvr => (readMap_exact 8 _ buf).2.1 v rest hvr,
      fun hl => (readMap_exact 8 _ buf).2.2 (by omega)⟩
  case MYSQL_TYPE_TIMESTAMP =>
    simp only [specTableByteCount, Option.some.injEq] at h
    subst h
    exact ⟨fun hl => ⟨_, (readMap_exact 4 _ buf).1 hl⟩,
      fun v rest hvr => (readMap_exact 4 _ buf).2.1 v rest hvr,
      fun hl => (readMap_exact 4 _ buf).2.2 (by omega)⟩
  case MYSQL_TYPE_INT24 =>
    simp only [specTableByteCount, Option.some.injEq] at h
    subst h
    cases u
    · exact ⟨fun hl => ⟨_, (readMap_exact 3 _ buf).1 hl⟩,
        fun v rest hvr => (readMap_exact 3 _ buf).2.1 v rest hvr,
        fun hl => (readMap_exact 3 _ buf).2.2 (by omega)⟩
    · exact ⟨fun hl => ⟨_, (readMap_exact 3 _ buf).1 hl⟩,
        fun v rest hvr => (readMap_exact 3 _ buf).2.1 v rest hvr,
        fun hl => (readMap_exact 3 _ buf).2.2 (by omega)⟩
  case MYSQL_TYPE_TIME =>
    simp only [specTableByteCount, Option.some.injEq] at h
    subst h
    exact ⟨fun hl => ⟨_, (readMap_exact 3 _ buf).1 hl⟩,
      fun v rest hvr => (readMap_exact 3 _ buf).2.1 v rest hvr,
      fun hl => (readMap_exact 3 _ buf).2.2 (by omega)⟩
  case MYSQL_TYPE_DATETIME =>
    simp only [specTableByteCount, Option.some.injEq] at h
    subst h
    exact ⟨fun hl => ⟨_, (readMap_exact 8 _ buf).1 hl⟩,
      fun v rest hvr => (readMap_exact 8 _ buf).2.1 v rest hvr,
      fun hl => (readMap_exact 8 _ buf).2.2 (by omega)⟩
  case MYSQL_TYPE_YEAR =>
    simp only [specTableByteCount, Option.some.injEq] at h
    subst h
    exact ⟨fun hl => ⟨_, (readMap_exact 1 _ buf).1 hl⟩,
      fun v rest hvr => (readMap_exact 1 _ buf).2.1 v rest hvr,
      fun hl => (readMap_exact 1 _ buf).2.2 (by omega)⟩
  case MYSQL_TYPE_NEWDATE =>
    simp only [specTableByteCount, Option.some.injEq] at h
    subst h
    exact ⟨fun hl => ⟨_, (readMap_exact 3 _ buf).1 hl⟩,
      fun v rest hvr => (readMap_exact 3 _ buf).2.1 v rest hvr,
      fun hl => (readMap_exact 3 _ buf).2.2 (by omega)⟩
  case MYSQL_TYPE_BIT =>
    cases hm0 : meta[0]? with
    | none => simp [specTableByteCount, hm0] at h
    | some m0 =>
      cases hm1 : meta[1]? with
      | none => simp [specTableByteCount, hm0, hm1] at h
      | some m1 =>
        simp only [specTableByteCount, hm0, hm1, Option.some.injEq] at h
        subst h
        simp only [deserialize, resolveTypedArray, resolveString,
          deserializeResolved, hm0, hm1, reduceCtorEq, if_false,
          reduceIte]
        exact ⟨fun hl => ⟨_, (readBytes_exact _ buf).1 hl⟩,
          fun v rest hvr => (readBytes_exact _ buf).2.1 v rest hvr,
          fun hl => (readBytes_exact _ buf).2.2 (by omega)⟩
  case MYSQL_TYPE_ENUM =>
    cases hm : meta[1]? with
    | none => simp [specTableByteCount, hm] at h
    | some w =>
      by_cases h1 : w = 1
      · subst h1
        simp [specTableByteCount, hm] at h
        subst h
        simp only [deserialize, resolveTypedArray, resolveString,
          deserializeResolved, hm, reduceCtorEq, if_false, reduceIte,
          if_pos rfl]
        exact ⟨fun hl => ⟨_, (readMap_exact 1 _ buf).1 hl⟩,
          fun v rest hvr => (readMap_exact 1 _ buf).2.1 v rest hvr,
          fun hl => (readMap_exact 1 _ buf).2.2 (by omega)⟩
      · by_cases h2 : w = 2
        · subst h2
          simp [specTableByteCount, hm] at h
          subst h
          simp only [deserialize, resolveTypedArray, resolveString,
            deserializeResolved, hm, reduceCtorEq, if_false, reduceIte]
          norm_num
          exact ⟨fun hl => ⟨_, (readMap_exact 2 _ buf).1 hl⟩,
            fun v rest hvr => (readMap_exact 2 _ buf).2.1 v rest hvr,
            fun hl => (readMap_exact 2 _ buf).2.2 (by omega)⟩
        · simp [specTableByteCount, hm, h1, h2] at h
  case MYSQL_TYPE_SET =>
    cases hm : meta[1]? with
    | none => simp [specTableByteCount, hm] at h
    | some c =>
      simp only [specTableByteCount, hm, Option.some.injEq] at h
      subst h
      simp only [deserialize, resolveTypedArray, resolveString,
        deserializeResolved, hm, reduceCtorEq, if_false, reduceIte]
      exact ⟨fun hl => ⟨_, (readBytes_exact _ buf).1 hl⟩,
        fun v rest hvr => (readBytes_exact _ buf).2.1 v rest hvr,
        fun hl => (readBytes_exact _ buf).2.2 (by omega)⟩
  all_goals simp [specTableByteCount] at h

theorem deserialize_consumes_table_count_witness :
    specTableByteCount .MYSQL_TYPE_ENUM [0, 2] = some 2 ∧
    (∃ v, deserialize .MYSQL_TYPE_ENUM [0, 2] false false [2, 0] =
      .ok v []) ∧
    deserialize .MYSQL_TYPE_ENUM [0, 2] false false [2] =
      .err .truncated [2] :=
  ⟨by decide,
   (deserialize_consumes_table_count .MYSQL_TYPE_ENUM [0, 2] false false
     [2, 0] 2 (by decide)).1 (by decide),
   (deserialize_consumes_table_count .MYSQL_TYPE_ENUM [0, 2] false false
     [2] 2 (by decide)).2.2 (by decide)⟩

/-- C2: STRING metadata resolution — with at least two metadata bytes, a
first byte `b0 ≥ 1` whose `0x30` bits are not all set derives length
`b1 ||| (((b0 &&& 0x30) ^^^ 0x30) <<< 4)` and reinterprets the type as code
`b0 ||| 0x30` (staying STRING when that code is unknown); `b0 ≥ 1` with the
`0x30` bits all set derives length `b1` without reinterpretation; `b0 = 0`
derives the little-endian 16-bit integer read from the metadata bytes
themselves. -/
theorem string_meta_resolution (b0 b1 : Nat) (ms : List Nat)
    (hb0 : b0 < 256) :
    (1 ≤ b0 → b0 &&& 0x30 ≠ 0x30 →
      resolveString .MYSQL_TYPE_STRING (b0 :: b1 :: ms) =
        some ((ColumnType.tryFrom (b0 ||| 0x30)).getD .MYSQL_TYPE_STRING,
          b1 ||| (((b0 &&& 0x30) ^^^ 0x30) <<< 4))) ∧
    (1 ≤ b0 → b0 &&& 0x30 = 0x30 →
      resolveString .MYSQL_TYPE_STRING (b0 :: b1 :: ms) =
        some (.MYSQL_TYPE_STRING, b1)) ∧
    (b0 = 0 →
      resolveString .MYSQL_TYPE_STRING (b0 :: b1 :: ms) =
        some (.MYSQL_TYPE_STRING, b0 + 256 * b1)) := by
  refine ⟨fun h1 h2 => ?_, fun h1 h2 => ?_, fun h0 => ?_⟩
  · simp [resolveString, h1, h2, Nat.mod_eq_of_lt hb0]
  · simp [resolveString, h1, h2]
  · subst h0
    simp [resolveString, eatU16le]

theorem string_meta_resolution_witness :
    (1 : Nat) < 256 ∧
    resolveString .MYSQL_TYPE_STRING [1, 5] =
      some (.MYSQL_TYPE_STRING, 773) ∧
    resolveString .MYSQL_TYPE_STRING [49, 5] =
      some (.MYSQL_TYPE_STRING, 5) :=
  ⟨by decide,
   (((string_meta_resolution 1 5 [] (by decide)).1 (by decide)
     (by decide)).trans (by decide)),
   ((string_meta_resolution 49 5 [] (by decide)).2.1 (by decide)
     (by decide))⟩

/-- C7: the typed-array placeholder is replaced by the type code stored in
the first metadata byte; a first byte mapping to no known type code keeps
the placeholder, and the resolution step itself raises no error. -/
theorem typed_array_resolution (b : Nat) (ms : List Nat) :
    (∀ t, ColumnType.tryFrom b = some t →
      resolveTypedArray .MYSQL_TYPE_TYPED_ARRAY (b :: ms) = some t) ∧
    (ColumnType.tryFrom b = none →
      resolveTypedArray .MYSQL_TYPE_TYPED_ARRAY (b :: ms) =
        some .MYSQL_TYPE_TYPED_ARRAY) := by
  constructor
  · intro t ht
    simp [resolveTypedArray, ht]
  · intro ht
    simp [resolveTypedArray, ht]

theorem typed_array_resolution_witness :
    ColumnType.tryFrom 1 = some .MYSQL_TYPE_TINY ∧
    resolveTypedArray .MYSQL_TYPE_TYPED_ARRAY [1] =
      some .MYSQL_TYPE_TINY ∧
    ColumnType.tryFrom 100 = none ∧
    resolveTypedArray .MYSQL_TYPE_TYPED_ARRAY [100] =
      some .MYSQL_TYPE_TYPED_ARRAY :=
  ⟨by decide,
   (typed_array_resolution 1 []).1 .MYSQL_TYPE_TINY (by decide),
   by decide,
   (typed_array_resolution 100 []).2 (by decide)⟩

/-- The observable content of a decoded value: the scalar itself, or the
referenced byte ranges stripped of their borrowed/owned tag. -/
def binlogContent : BinlogValue → Value ⊕ List Nat ⊕ List (List Nat)
  | .Value v => Sum.inl v
  | .Jsonb j => Sum.inr (Sum.inl j.raw.data)
  | .JsonDiff ds => Sum.inr (Sum.inr (ds.map (fun d => d.payload.data)))

/-- Whether every byte range referenced by the value is an independent copy
(scalars reference no byte range of the source buffer). -/
def binlogAllOwned : BinlogValue → Bool
  | .Value _ => true
  | .Jsonb j => j.raw.isOwned
  | .JsonDiff ds => ds.all (fun d => d.payload.isOwned)

/-- C8: `into_owned` produces a value semantically equal to the original and
deep-copies every referenced byte range, including every record inside a
diff sequence. -/
theorem into_owned_preserves_content (v : BinlogValue) :
    binlogContent v.intoOwned = binlogContent v ∧
    binlogAllOwned v.intoOwned = true := by
  cases v with
  | Value x => simp [BinlogValue.intoOwned, binlogContent, binlogAllOwned]
  | Jsonb j =>
    cases j with
    | mk raw =>
      cases raw <;>
        simp [BinlogValue.intoOwned, JsonbValue.intoOwned, Cow.intoOwned,
          binlogContent, binlogAllOwned, Cow.data, Cow.isOwned]
  | JsonDiff ds =>
    constructor
    · simp only [BinlogValue.intoOwned, binlogContent, List.map_map,
        Sum.inr.injEq]
      apply List.map_congr_left
      intro d hd
      cases d with
      | mk payload => cases payload <;> rfl
    · simp only [BinlogValue.intoOwned, binlogAllOwned, List.all_eq_true]
      intro d hd
      simp only [List.mem_map] at hd
      obtain ⟨d0, _, rfl⟩ := hd
      cases d0 with
      | mk payload => cases payload <;> rfl

/-- C10: deserialize is not atomic with respect to the cursor on error — a
BLOB whose one-byte length prefix is present but whose data bytes are
truncated, and a JSON value whose four-byte length prefix is present but
whose body is truncated, both return a truncation error with the cursor
already advanced past the consumed prefix, not restored to the start of the
call. -/
theorem error_after_partial_consumption :
    deserialize .MYSQL_TYPE_BLOB [1] false false [5, 170] =
      .err .truncated [170] ∧
    ([170] : List Nat) ≠ [5, 170] ∧
    deserialize .MYSQL_TYPE_JSON [] false false [2, 0, 0, 0, 170] =
      .err .truncated [170] ∧
    ([170] : List Nat) ≠ [2, 0, 0, 0, 170] := by
  refine ⟨by decide, by decide, by decide, by decide⟩

theorem lor_shift8 (m0 m1 : Nat) (h : m0 < 256) :
    m0 ||| (m1 <<< 8) = m0 + 256 * m1 := by
  have e : (2 : Nat) ^ 8 = 256 := by norm_num
  have h2 := Nat.mul_add_lt_is_or (show m0 < 2 ^ 8 by rw [e]; exact h) m1
  rw [Nat.shiftLeft_eq, Nat.lor_comm, Nat.mul_comm m1 (2 ^ 8), ← h2, e]
  omega

theorem lenPrefixedRead_one (n : Nat) (tail : List Nat)
    (hn : n ≤ tail.length) :
    lenPrefixedRead 1 (n :: tail) =
      .ok (.Value (.Bytes (tail.take n))) (tail.drop n) := by
  simp only [lenPrefixedRead, checkedEatUleN]
  rw [checkedEat_of_le (by simp)]
  simpa [leVal] using (readBytes_exact n tail).1 hn

theorem lenPrefixedRead_two (n0 n1 : Nat) (tail : List Nat)
    (hn : n0 + 256 * n1 ≤ tail.length) :
    lenPrefixedRead 2 (n0 :: n1 :: tail) =
      .ok (.Value (.Bytes (tail.take (n0 + 256 * n1))))
        (tail.drop (n0 + 256 * n1)) := by
  simp only [lenPrefixedRead, checkedEatUleN]
  rw [checkedEat_of_le (by simp)]
  simpa [leVal] using (readBytes_exact (n0 + 256 * n1) tail).1 hn

/-- C4: for VARCHAR/VAR_STRING the declared maximum length is the
little-endian 16-bit integer formed from the two metadata bytes, and the row
data-length prefix is one byte when that maximum is below 256 and two bytes
(little-endian) otherwise, followed by exactly that many data bytes; for
STRING the same choice is made using the derived length from the resolver. -/
theorem varchar_string_prefix_choice (m0 m1 : Nat) (u p : Bool)
    (h0 : m0 < 256) (h1 : m1 < 256) :
    (m0 ||| (m1 <<< 8) = m0 + 256 * m1) ∧
    (∀ n tail, m0 + 256 * m1 < 256 → n ≤ List.length tail →
      deserialize .MYSQL_TYPE_VARCHAR [m0, m1] u p (n :: tail) =
        .ok (.Value (.Bytes (tail.take n))) (tail.drop n)) ∧
    (∀ n0 n1 tail, 256 ≤ m0 + 256 * m1 →
      n0 + 256 * n1 ≤ List.length tail →
      deserialize .MYSQL_TYPE_VARCHAR [m0, m1] u p (n0 :: n1 :: tail) =
        .ok (.Value (.Bytes (tail.take (n0 + 256 * n1))))
          (tail.drop (n0 + 256 * n1))) ∧
    (∀ n tail, m0 + 256 * m1 < 256 → n ≤ List.length tail →
      deserialize .MYSQL_TYPE_VAR_STRING [m0, m1] u p (n :: tail) =
        .ok (.Value (.Bytes (tail.take n))) (tail.drop n)) ∧
    (∀ n0 n1 tail, 256 ≤ m0 + 256 * m1 →
      n0 + 256 * n1 ≤ List.length tail →
      deserialize .MYSQL_TYPE_VAR_STRING [m0, m1] u p (n0 :: n1 :: tail) =
        .ok (.Value (.Bytes (tail.take (n0 + 256 * n1))))
          (tail.drop (n0 + 256 * n1))) ∧
    (∀ meta L n tail, resolveString .MYSQL_TYPE_STRING meta =
        some (.MYSQL_TYPE_STRING, L) → L < 256 → n ≤ List.length tail →
      deserialize .MYSQL_TYPE_STRING meta u p (n :: tail) =
        .ok (.Value (.Bytes (tail.take n))) (tail.drop n)) ∧
    (∀ meta L n0 n1 tail, resolveString .MYSQL_TYPE_STRING meta =
        some (.MYSQL_TYPE_STRING, L) → 256 ≤ L →
      n0 + 256 * n1 ≤ List.length tail →
      deserialize .MYSQL_TYPE_STRING meta u p (n0 :: n1 :: tail) =
        .ok (.Value (.Bytes (tail.take (n0 + 256 * n1))))
          (tail.drop (n0 + 256 * n1))) := by
  have e8 : m0 ||| (m1 <<< 8) = m0 + 256 * m1 := lor_shift8 m0 m1 h0
  refine ⟨e8, ?_, ?_, ?_, ?_, ?_, ?_⟩
  · intro n tail hlt hn
    have harm : deserialize .MYSQL_TYPE_VARCHAR [m0, m1] u p (n :: tail) =
        lenPrefixedRead 1 (n :: tail) := by
      simp [deserialize, resolveTypedArray, resolveString,
        deserializeResolved, e8, hlt]
    rw [harm, lenPrefixedRead_one n tail hn]
  · intro n0 n1 tail hge hn
    have harm : deserialize .MYSQL_TYPE_VARCHAR [m0, m1] u p
        (n0 :: n1 :: tail) = lenPrefixedRead 2 (n0 :: n1 :: tail) := by
      simp [deserialize, resolveTypedArray, resolveString,
        deserializeResolved, e8,
        show ¬(m0 + 256 * m1 < 256) from by omega]
    rw [harm, lenPrefixedRead_two n0 n1 tail hn]
  · intro n tail hlt hn
    have harm : deserialize .MYSQL_TYPE_VAR_STRING [m0, m1] u p
        (n :: tail) = lenPrefixedRead 1 (n :: tail) := by
      simp [deserialize, resolveTypedArray, resolveString,
        deserializeResolved, e8, hlt]
    rw [harm, lenPrefixedRead_one n tail hn]
  · intro n0 n1 tail hge hn
    have harm : deserialize .MYSQL_TYPE_VAR_STRING [m0, m1] u p
        (n0 :: n1 :: tail) = lenPrefixedRead 2 (n0 :: n1 :: tail) := by
      simp [deserialize, resolveTypedArray, resolveString,
        deserializeResolved, e8,
        show ¬(m0 + 256 * m1 < 256) from by omega]
    rw [harm, lenPrefixedRead_two n0 n1 tail hn]
  · intro meta L n tail hres hL hn
    have harm : deserialize .MYSQL_TYPE_STRING meta u p (n :: tail) =
        lenPrefixedRead 1 (n :: tail) := by
      simp [deserialize, resolveTypedArray, hres, deserializeResolved, hL]
    rw [harm, lenPrefixedRead_one n tail hn]
  · intro meta L n0 n1 tail hres hL hn
    have harm : deserialize .MYSQL_TYPE_STRING meta u p
        (n0 :: n1 :: tail) = lenPrefixedRead 2 (n0 :: n1 :: tail) := by
      simp [deserialize, resolveTypedArray, hres, deserializeResolved,
        show ¬(L < 256) from by omega]
    rw [harm, lenPrefixedRead_two n0 n1 tail hn]

theorem varchar_string_prefix_choice_witness :
    (44 : Nat) < 256 ∧ (1 : Nat) < 256 ∧
    deserialize .MYSQL_TYPE_VARCHAR [44, 1] false false [3, 0, 7, 8, 9] =
      .ok (.Value (.Bytes [7, 8, 9])) [] ∧
    deserialize .MYSQL_TYPE_VARCHAR [100, 0] false false [2, 7, 8] =
      .ok (.Value (.Bytes [7, 8])) [] :=
  ⟨by decide, by decide,
   ((varchar_string_prefix_choice 44 1 false false (by decide)
     (by decide)).2.2.1 3 0 [7, 8, 9] (by decide) (by decide)).trans
     (by decide),
   ((varchar_string_prefix_choice 100 0 false false (by decide)
     (by decide)).2.1 2 [7, 8] (by decide) (by decide)).trans (by decide)⟩

/-- The four BLOB-family type codes of binlog.rs lines 207-210. -/
def blobTypes : List ColumnType :=
  [.MYSQL_TYPE_TINY_BLOB, .MYSQL_TYPE_MEDIUM_BLOB, .MYSQL_TYPE_LONG_BLOB,
   .MYSQL_TYPE_BLOB]

/-- Resolved type codes with no decode arm (the default arm of binlog.rs
lines 240-245). -/
def unsupportedTypes : List ColumnType :=
  [.MYSQL_TYPE_DECIMAL, .MYSQL_TYPE_NULL, .MYSQL_TYPE_DATE,
   .MYSQL_TYPE_UNKNOWN, .MYSQL_TYPE_GEOMETRY]

/-- C5: unsupported encodings fail with a distinct invalid-data error and
only they do — an ENUM storage width other than 1 or 2 yields "Unknown
ENUM", a BLOB length-prefix width outside 1-4 yields "Unknown BLOB", a
resolved type with no decode arm (including an unresolvable typed-array
placeholder) yields the unsupported-column error; supported ENUM widths read
one byte (width 1) or a little-endian 16-bit value (width 2) returning the
integer index, and supported ENUM/BLOB widths never produce an invalid-data
error. -/
theorem unsupported_encoding_errors (u p : Bool) :
    (∀ m0 w ms buf, w ≠ 1 → w ≠ 2 →
      deserialize .MYSQL_TYPE_ENUM (m0 :: w :: ms) u p buf =
        .err (.invalidData "Unknown ENUM") buf) ∧
    (∀ m0 ms b rest,
      deserialize .MYSQL_TYPE_ENUM (m0 :: 1 :: ms) u p (b :: rest) =
        .ok (.Value (.Int (b : ℤ))) rest) ∧
    (∀ m0 ms b0 b1 rest,
      deserialize .MYSQL_TYPE_ENUM (m0 :: 2 :: ms) u p (b0 :: b1 :: rest) =
        .ok (.Value (.Int ((b0 + 256 * b1 : Nat) : ℤ))) rest) ∧
    (∀ t w ms buf, t ∈ blobTypes → ¬(1 ≤ w ∧ w ≤ 4) →
      deserialize t (w :: ms) u p buf =
        .err (.invalidData "Unknown BLOB") buf) ∧
    (∀ t meta buf, t ∈ unsupportedTypes →
      deserialize t meta u p buf =
        .err (.invalidData "Don't know how to handle column") buf) ∧
    (∀ b ms buf, ColumnType.tryFrom b = none →
      deserialize .MYSQL_TYPE_TYPED_ARRAY (b :: ms) u p buf =
        .err (.invalidData "Don't know how to handle column") buf) ∧
    (∀ m0 w ms buf, w = 1 ∨ w = 2 → ∀ msg rest,
      deserialize .MYSQL_TYPE_ENUM (m0 :: w :: ms) u p buf ≠
        .err (.invalidData msg) rest) ∧
    (∀ t w ms buf, t ∈ blobTypes → 1 ≤ w → w ≤ 4 → ∀ msg rest,
      deserialize t (w :: ms) u p buf ≠ .err (.invalidData msg) rest) := by
  refine ⟨?_, ?_, ?_, ?_, ?_, ?_, ?_, ?_⟩
  · intro m0 w ms buf hw1 hw2
    simp [deserialize, resolveTypedArray, resolveString, deserializeResolved,
      hw1, hw2]
  · intro m0 ms b rest
    have harm : deserialize .MYSQL_TYPE_ENUM (m0 :: 1 :: ms) u p
        (b :: rest) =
        readMap 1 (fun v => .Value (.Int (v : ℤ))) (b :: rest) := by
      simp [deserialize, resolveTypedArray, resolveString,
        deserializeResolved]
    rw [harm]
    have h1 := (readMap_exact 1 (fun v => .Value (.Int (v : ℤ)))
      (b :: rest)).1 (by simp)
    simpa [leVal] using h1
  · intro m0 ms b0 b1 rest
    have harm : deserialize .MYSQL_TYPE_ENUM (m0 :: 2 :: ms) u p
        (b0 :: b1 :: rest) =
        readMap 2 (fun v => .Value (.Int (v : ℤ))) (b0 :: b1 :: rest) := by
      simp [deserialize, resolveTypedArray, resolveString,
        deserializeResolved]
    rw [harm]
    have h1 := (readMap_exact 2 (fun v => .Value (.Int (v : ℤ)))
      (b0 :: b1 :: rest)).1 (by simp)
    simpa [leVal] using h1
  · intro t w ms buf ht hw
    have h1 : w ≠ 1 := by omega
    have h2 : w ≠ 2 := by omega
    have h3 : w ≠ 3 := by omega
    have h4 : w ≠ 4 := by omega
    simp only [blobTypes, List.mem_cons, List.mem_singleton,
      List.not_mem_nil, or_false] at ht
    rcases ht with rfl | rfl | rfl | rfl <;>
      simp [deserialize, resolveTypedArray, resolveString,
        deserializeResolved, h1, h2, h3, h4]
  · intro t meta buf ht
    simp only [unsupportedTypes, List.mem_cons, List.mem_singleton,
      List.not_mem_nil, or_false] at ht
    rcases ht with rfl | rfl | rfl | rfl | rfl <;>
      simp [deserialize, resolveTypedArray, resolveString,
        deserializeResolved]
  · intro b ms buf hb
    simp [deserialize, resolveTypedArray, hb, resolveString,
      deserializeResolved]
  · intro m0 w ms buf hw msg rest
    rcases hw with rfl | rfl
    · have harm : deserialize .MYSQL_TYPE_ENUM (m0 :: 1 :: ms) u p buf =
          readMap 1 (fun v => .Value (.Int (v : ℤ))) buf := by
        simp [deserialize, resolveTypedArray, resolveString,
          deserializeResolved]
      rw [harm]
      exact readMap_ne_invalid 1 _ buf msg rest
    · have harm : deserialize .MYSQL_TYPE_ENUM (m0 :: 2 :: ms) u p buf =
          readMap 2 (fun v => .Value (.Int (v : ℤ))) buf := by
        simp [deserialize, resolveTypedArray, resolveString,
          deserializeResolved]
      rw [harm]
      exact readMap_ne_invalid 2 _ buf msg rest
  · intro t w ms buf ht hw1 hw2 msg rest
    simp only [blobTypes, List.mem_cons, List.mem_singleton,
      List.not_mem_nil, or_false] at ht
    interval_cases w <;>
      rcases ht with rfl | rfl | rfl | rfl <;>
      · have harm : ∀ k, lenPrefixedRead k buf ≠
            .err (.invalidData msg) rest :=
          fun k => lenPrefixedRead_ne_invalid k buf msg rest
        simp only [deserialize, resolveTypedArray, resolveString,
          deserializeResolved]
        simp
        apply harm

theorem unsupported_encoding_errors_witness :
    deserialize .MYSQL_TYPE_ENUM [0, 3] false false [2, 0] =
      .err (.invalidData "Unknown ENUM") [2, 0] ∧
    deserialize .MYSQL_TYPE_ENUM [0, 2] false false [2, 0] =
      .ok (.Value (.Int 2)) [] ∧
    deserialize .MYSQL_TYPE_BLOB [5] false false [1, 9] =
      .err (.invalidData "Unknown BLOB") [1, 9] :=
  ⟨(unsupported_encoding_errors false false).1 0 3 [] [2, 0] (by decide)
     (by decide),
   ((unsupported_encoding_errors false false).2.2.1 0 [] 2 0 []).trans
     (by decide),
   (unsupported_encoding_errors false false).2.2.2.1 .MYSQL_TYPE_BLOB 5 []
     [1, 9] (by decide) (by decide)⟩

/-- The `k`-byte little-endian encoding of `n` (least significant byte
first). -/
def natLeBytes : Nat → Nat → List Nat
  | 0, _ => []
  | k + 1, n => n % 256 :: natLeBytes k (n / 256)

/-- C6 counterexample: the raw little-endian 64-bit integer
`700000000000000` has date part `700000000`, so the claimed year would be
`70000`, but the decoder casts the year to `u16` and returns `4464`
(`70000 % 65536`), so the claimed formula `year = (raw/1_000_000)/10000`
does not hold at this input. -/
theorem datetime_year_formula_counterexample :
    deserialize .MYSQL_TYPE_DATETIME [] false false
      (natLeBytes 8 700000000000000) =
      .ok (.Value (.Date 4464 0 0 0 0 0 0)) [] ∧
    700000000000000 / 1000000 / 10000 = 70000 ∧
    (4464 : Nat) ≠ 70000 := by
  refine ⟨by decide, by decide, by decide⟩

/-- C6 (amended): the legacy DATETIME decoder consumes exactly eight bytes
as a little-endian 64-bit integer `raw` and returns the calendar value with
year `(raw/1_000_000)/10000 % 2^16` (the year field is a `u16` cast), month
`((raw/1_000_000)%10000)/100`, day `(raw/1_000_000)%100`, hour
`(raw%1_000_000)/10000`, minute `((raw%1_000_000)%10000)/100`, second
`(raw%1_000_000)%100`, and fractional part `0`; the remaining fields need no
reduction because they are below 256. -/
theorem datetime_legacy_decode (bs rest meta : List Nat) (u p : Bool)
    (h : bs.length = 8) :
    deserialize .MYSQL_TYPE_DATETIME meta u p (bs ++ rest) =
      .ok (.Value (.Date (leVal bs / 1000000 / 10000 % 65536)
        (leVal bs / 1000000 % 10000 / 100) (leVal bs / 1000000 % 100)
        (leVal bs % 1000000 / 10000) (leVal bs % 1000000 % 10000 / 100)
        (leVal bs % 1000000 % 100) 0)) rest := by
  have harm : deserialize .MYSQL_TYPE_DATETIME meta u p (bs ++ rest) =
      readMap 8 (fun raw => .Value (.Date (raw / 1000000 / 10000 % 65536)
        (raw / 1000000 % 10000 / 100 % 256) (raw / 1000000 % 100 % 256)
        (raw % 1000000 / 10000 % 256) (raw % 1000000 % 10000 / 100 % 256)
        (raw % 1000000 % 100 % 256) 0)) (bs ++ rest) := by
    simp [deserialize, resolveTypedArray, resolveString, deserializeResolved]
  rw [harm]
  have hlen : 8 ≤ (bs ++ rest).length := by simp [h]
  rw [(readMap_exact 8 _ (bs ++ rest)).1 hlen]
  rw [show (bs ++ rest).take 8 = bs from by rw [← h]; exact List.take_left bs rest]
  rw [show (bs ++ rest).drop 8 = rest from by rw [← h]; exact List.drop_left bs rest]
  have e1 : leVal bs / 1000000 % 10000 / 100 % 256 =
      leVal bs / 1000000 % 10000 / 100 := Nat.mod_eq_of_lt (by omega)
  have e2 : leVal bs / 1000000 % 100 % 256 = leVal bs / 1000000 % 100 :=
    Nat.mod_eq_of_lt (by omega)
  have e3 : leVal bs % 1000000 / 10000 % 256 =
      leVal bs % 1000000 / 10000 := Nat.mod_eq_of_lt (by omega)
  have e4 : leVal bs % 1000000 % 10000 / 100 % 256 =
      leVal bs % 1000000 % 10000 / 100 := Nat.mod_eq_of_lt (by omega)
  have e5 : leVal bs % 1000000 % 100 % 256 = leVal bs % 1000000 % 100 :=
    Nat.mod_eq_of_lt (by omega)
  rw [e1, e2, e3, e4, e5]

theorem datetime_legacy_decode_witness :
    (natLeBytes 8 20230615143000).length = 8 ∧
    deserialize .MYSQL_TYPE_DATETIME [] false false
      (natLeBytes 8 20230615143000 ++ []) =
      .ok (.Value (.Date 2023 6 15 14 30 0 0)) [] :=
  ⟨by decide,
   (datetime_legacy_decode (natLeBytes 8 20230615143000) [] [] false false
     (by decide)).trans (by decide)⟩

theorem natLeBytes_length (k : Nat) : ∀ n, (natLeBytes k n).length = k := by
  induction k with
  | zero => intro n; simp [natLeBytes]
  | succ k ih => intro n; simp [natLeBytes, ih]

theorem leVal_natLeBytes (k : Nat) : ∀ n, n < 2 ^ (8 * k) →
    leVal (natLeBytes k n) = n := by
  induction k with
  | zero =>
    intro n h
    simp only [Nat.mul_zero, pow_zero, Nat.lt_one_iff] at h
    simp [natLeBytes, leVal, h]
  | succ k ih =>
    intro n h
    have h2 : n < 2 ^ (8 * k) * 256 := by
      have e : 8 * (k + 1) = 8 * k + 8 := by ring
      rw [e, pow_add] at h
      norm_num at h
      exact h
    have h3 : n / 256 < 2 ^ (8 * k) :=
      Nat.div_lt_of_lt_mul (by rw [Nat.mul_comm] at h2; exact h2)
    simp only [natLeBytes, leVal, ih (n / 256) h3]
    omega

/-- Concatenation of self-delimiting diff records, each a one-byte payload
length followed by the payload. -/
def recsEncode : List (List Nat) → List Nat
  | [] => []
  | pl :: ps => pl.length :: (pl ++ recsEncode ps)

theorem parseDiffsLoop_encode (ps : List (List Nat)) :
    ∀ fuel, (recsEncode ps).length ≤ fuel →
      parseDiffsLoop fuel (recsEncode ps) =
        some (ps.map fun pl => (⟨Cow.borrowed pl⟩ : JsonDiff)) := by
  induction ps with
  | nil =>
    intro fuel h
    cases fuel <;> simp [recsEncode, parseDiffsLoop]
  | cons pl ps ih =>
    intro fuel h
    simp only [recsEncode, List.length_cons] at h
    cases fuel with
    | zero => omega
    | succ f =>
      simp only [recsEncode, parseDiffsLoop]
      rw [if_pos (by simp)]
      rw [List.drop_left pl (recsEncode ps), List.take_left pl (recsEncode ps)]
      rw [ih f (by simp at h; omega)]
      simp

theorem parseDiffsLoop_truncated (n : Nat) (pl : List Nat)
    (hlt : pl.length < n) (ps : List (List Nat)) :
    ∀ fuel, (recsEncode ps ++ n :: pl).length ≤ fuel →
      parseDiffsLoop fuel (recsEncode ps ++ n :: pl) = none := by
  induction ps with
  | nil =>
    intro fuel h
    simp only [recsEncode, List.nil_append, List.length_cons] at h ⊢
    cases fuel with
    | zero => omega
    | succ f =>
      simp only [parseDiffsLoop]
      rw [if_neg (by omega)]
  | cons q ps ih =>
    intro fuel h
    simp only [recsEncode, List.cons_append, List.length_cons,
      List.append_assoc] at h ⊢
    cases fuel with
    | zero => omega
    | succ f =>
      simp only [parseDiffsLoop]
      rw [if_pos (by simp)]
      rw [List.drop_left q (recsEncode ps ++ n :: pl)]
      rw [ih f (by simp at h ⊢; omega)]
      simp

theorem deserialize_json_eq (meta : List Nat) (u flag : Bool)
    (sub rest : List Nat) (h : sub.length < 2 ^ 32) :
    deserialize .MYSQL_TYPE_JSON meta u flag
      (natLeBytes 4 sub.length ++ (sub ++ rest)) =
      (if flag then
        match parseDiffsLoop sub.length sub with
        | none => .err .truncated rest
        | some ds => .ok (.JsonDiff ds) rest
      else .ok (.Jsonb ⟨Cow.owned sub⟩) rest) := by
  have e1 : checkedEatUleN 4 (natLeBytes 4 sub.length ++ (sub ++ rest)) =
      some (sub.length, sub ++ rest) := by
    simp only [checkedEatUleN, checkedEat_append (natLeBytes_length 4 _)]
    rw [leVal_natLeBytes 4 _ h]
  have e2 : checkedEat sub.length (sub ++ rest) = some (sub, rest) :=
    checkedEat_append rfl
  simp only [deserialize, resolveTypedArray, resolveString,
    deserializeResolved, e1, e2]
  cases flag <;>
    simp [jsonbDeserialize, JsonbValue.intoOwned, Cow.intoOwned]

/-- C3: the JSON arm reads a four-byte little-endian length prefix and takes
exactly that many bytes as a sub-buffer; with the partial-update flag set it
parses diff records until the sub-buffer is empty, returning a diff sequence
whose count equals the number of records, and propagates a truncation error
when the final record is cut mid-parse; with the flag clear it parses one
full JSON tree from the sub-buffer converted to independently-owned form. -/
theorem json_decode (meta : List Nat) (u : Bool) :
    (∀ ps rest, (recsEncode ps).length < 2 ^ 32 →
      deserialize .MYSQL_TYPE_JSON meta u true
        (natLeBytes 4 (recsEncode ps).length ++ (recsEncode ps ++ rest)) =
        .ok (.JsonDiff (ps.map fun pl => ⟨Cow.borrowed pl⟩)) rest ∧
      (ps.map fun pl => (⟨Cow.borrowed pl⟩ : JsonDiff)).length =
        ps.length) ∧
    (∀ ps n pl rest, pl.length < n →
      (recsEncode ps ++ n :: pl).length < 2 ^ 32 →
      deserialize .MYSQL_TYPE_JSON meta u true
        (natLeBytes 4 (recsEncode ps ++ n :: pl).length ++
          ((recsEncode ps ++ n :: pl) ++ rest)) = .err .truncated rest) ∧
    (∀ sub rest, sub.length < 2 ^ 32 →
      deserialize .MYSQL_TYPE_JSON meta u false
        (natLeBytes 4 sub.length ++ (sub ++ rest)) =
        .ok (.Jsonb ⟨Cow.owned sub⟩) rest) := by
  refine ⟨fun ps rest h => ⟨?_, by simp⟩, fun ps n pl rest hlt h => ?_,
    fun sub rest h => ?_⟩
  · rw [deserialize_json_eq meta u true (recsEncode ps) rest h]
    rw [parseDiffsLoop_encode ps (recsEncode ps).length le_rfl]
    simp
  · rw [deserialize_json_eq meta u true (recsEncode ps ++ n :: pl) rest h]
    rw [parseDiffsLoop_truncated n pl hlt ps
      (recsEncode ps ++ n :: pl).length le_rfl]
    simp
  · rw [deserialize_json_eq meta u false sub rest h]
    simp

theorem json_decode_witness :
    ((recsEncode [[9, 9], [8], []]).length < 2 ^ 32 ∧
      deserialize .MYSQL_TYPE_JSON [] false true
        [6, 0, 0, 0, 2, 9, 9, 1, 8, 0] =
        .ok (.JsonDiff [⟨Cow.borrowed [9, 9]⟩, ⟨Cow.borrowed [8]⟩,
          ⟨Cow.borrowed []⟩]) []) ∧
    ((1 : Nat) < 5 ∧
      deserialize .MYSQL_TYPE_JSON [] false true [4, 0, 0, 0, 2, 9, 5, 8] =
        .err .truncated []) ∧
    deserialize .MYSQL_TYPE_JSON [] false false [3, 0, 0, 0, 9, 9, 9, 5] =
      .ok (.Jsonb ⟨Cow.owned [9, 9, 9]⟩) [5] :=
  ⟨⟨by decide,
    (((json_decode [] false).1 [[9, 9], [8], []] [] (by decide)).1.symm.trans
      (by decide)).symm⟩,
   ⟨by decide,
    (((json_decode [] false).2.1 [[9, 9]] 5 [8] [] (by decide)
      (by decide)).symm.trans (by decide)).symm⟩,
   (((json_decode [] false).2.2 [9, 9, 9] [5] (by decide)).symm.trans
     (by decide)).symm⟩

/-- Metadata length below which `deserialize` panics for a directly supplied
(not yet typed-array-resolved) type: STRING reads two metadata bytes in every
resolver branch (also when the first byte is 0, via the panicking
`eat_u16_le` on the metadata slice). -/
def baseMetaReq : ColumnType → Nat
  | .MYSQL_TYPE_STRING | .MYSQL_TYPE_BIT | .MYSQL_TYPE_NEWDECIMAL
  | .MYSQL_TYPE_ENUM | .MYSQL_TYPE_SET | .MYSQL_TYPE_VARCHAR
  | .MYSQL_TYPE_VAR_STRING => 2
  | .MYSQL_TYPE_TIMESTAMP2 | .MYSQL_TYPE_DATETIME2 | .MYSQL_TYPE_TIME2
  | .MYSQL_TYPE_TINY_BLOB | .MYSQL_TYPE_MEDIUM_BLOB | .MYSQL_TYPE_LONG_BLOB
  | .MYSQL_TYPE_BLOB => 1
  | _ => 0

/-- The exact precondition under which `deserialize` is panic-free: the
metadata length requirement of the supplied type, where a typed-array
placeholder first needs its element-type byte and then inherits the
requirement of the resolved element type. -/
def metaLenOk (t : ColumnType) (meta : List Nat) : Bool :=
  match t with
  | .MYSQL_TYPE_TYPED_ARRAY =>
    match meta[0]? with
    | none => false
    | some b =>
      decide (baseMetaReq ((ColumnType.tryFrom b).getD
        .MYSQL_TYPE_TYPED_ARRAY) ≤ meta.length)
  | _ => decide (baseMetaReq t ≤ meta.length)

/-- The metadata length precondition exactly as the claim states it: at
least one byte for TYPED_ARRAY, TIMESTAMP2/DATETIME2/TIME2 and the BLOB
family, at least two bytes for STRING with first byte at least 1, BIT,
NEWDECIMAL, ENUM, SET and VARCHAR/VAR_STRING. -/
def claimedMetaReqOk (t : ColumnType) (meta : List Nat) : Bool :=
  match t with
  | .MYSQL_TYPE_TYPED_ARRAY | .MYSQL_TYPE_TIMESTAMP2
  | .MYSQL_TYPE_DATETIME2 | .MYSQL_TYPE_TIME2 | .MYSQL_TYPE_TINY_BLOB
  | .MYSQL_TYPE_MEDIUM_BLOB | .MYSQL_TYPE_LONG_BLOB | .MYSQL_TYPE_BLOB =>
    decide (1 ≤ meta.length)
  | .MYSQL_TYPE_STRING =>
    match meta[0]? with
    | none => false
    | some b => if 1 ≤ b then decide (2 ≤ meta.length) else true
  | .MYSQL_TYPE_BIT | .MYSQL_TYPE_NEWDECIMAL | .MYSQL_TYPE_ENUM
  | .MYSQL_TYPE_SET | .MYSQL_TYPE_VARCHAR | .MYSQL_TYPE_VAR_STRING =>
    decide (2 ≤ meta.length)
  | _ => true

/-- Metadata length required by the decode-table arm of an already-resolved
type (the STRING arm itself reads no metadata: its reads happen in the
resolver). -/
def resolvedMetaReq : ColumnType → Nat
  | .MYSQL_TYPE_BIT | .MYSQL_TYPE_NEWDECIMAL | .MYSQL_TYPE_ENUM
  | .MYSQL_TYPE_SET | .MYSQL_TYPE_VARCHAR | .MYSQL_TYPE_VAR_STRING => 2
  | .MYSQL_TYPE_TIMESTAMP2 | .MYSQL_TYPE_DATETIME2 | .MYSQL_TYPE_TIME2
  | .MYSQL_TYPE_TINY_BLOB | .MYSQL_TYPE_MEDIUM_BLOB | .MYSQL_TYPE_LONG_BLOB
  | .MYSQL_TYPE_BLOB => 1
  | _ => 0

theorem resolvedMetaReq_le_two (t : ColumnType) : resolvedMetaReq t ≤ 2 := by
  cases t <;> simp [resolvedMetaReq]

theorem deserializeBin_ne_panic (t : ColumnType) (u : Bool)
    (buf : List Nat) : deserializeBin t u buf ≠ .panic := by
  cases t <;> cases u <;> simp only [deserializeBin] <;>
    first
      | exact readMap_ne_panic _ _ _
      | split_ifs <;> exact readMap_ne_panic _ _ _
      | simp

theorem decimalReadBin_ne_panic (precision scale : Nat) (buf : List Nat) :
    decimalReadBin precision scale buf ≠ .panic := by
  unfold decimalReadBin
  cases h : checkedEat (decimalBinSize precision scale) buf with
  | none => simp
  | some q => obtain ⟨bs, rest⟩ := q; simp

theorem deserializeResolved_panic_iff (t : ColumnType) (len : Nat)
    (meta : List Nat) (u p : Bool) (buf : List Nat) :
    deserializeResolved t len meta u p buf = .panic ↔
      meta.length < resolvedMetaReq t := by
  cases t
  case MYSQL_TYPE_TINY =>
    exact iff_of_false (deserializeBin_ne_panic .MYSQL_TYPE_TINY u buf) (by simp [resolvedMetaReq])
  case MYSQL_TYPE_SHORT =>
    exact iff_of_false (deserializeBin_ne_panic .MYSQL_TYPE_SHORT u buf) (by simp [resolvedMetaReq])
  case MYSQL_TYPE_LONG =>
    exact iff_of_false (deserializeBin_ne_panic .MYSQL_TYPE_LONG u buf) (by simp [resolvedMetaReq])
  case MYSQL_TYPE_LONGLONG =>
    exact iff_of_false (deserializeBin_ne_panic .MYSQL_TYPE_LONGLONG u buf) (by simp [resolvedMetaReq])
  case MYSQL_TYPE_FLOAT =>
    exact iff_of_false (deserializeBin_ne_panic .MYSQL_TYPE_FLOAT u buf) (by simp [resolvedMetaReq])
  case MYSQL_TYPE_DOUBLE =>
    exact iff_of_false (deserializeBin_ne_panic .MYSQL_TYPE_DOUBLE u buf) (by simp [resolvedMetaReq])
  case MYSQL_TYPE_TIMESTAMP =>
    exact iff_of_false (readMap_ne_panic _ _ _) (by simp [resolvedMetaReq])
  case MYSQL_TYPE_INT24 =>
    refine iff_of_false ?_ (by simp [resolvedMetaReq])
    cases u <;> exact readMap_ne_panic _ _ _
  case MYSQL_TYPE_TIME =>
    exact iff_of_false (readMap_ne_panic _ _ _) (by simp [resolvedMetaReq])
  case MYSQL_TYPE_DATETIME =>
    exact iff_of_false (readMap_ne_panic _ _ _) (by simp [resolvedMetaReq])
  case MYSQL_TYPE_YEAR =>
    exact iff_of_false (readMap_ne_panic _ _ _) (by simp [resolvedMetaReq])
  case MYSQL_TYPE_NEWDATE =>
    exact iff_of_false (readMap_ne_panic _ _ _) (by simp [resolvedMetaReq])
  case MYSQL_TYPE_BIT =>
    match meta with
    | [] => exact iff_of_true (by simp [deserializeResolved]) (by simp [resolvedMetaReq])
    | [m0] => exact iff_of_true (by simp [deserializeResolved]) (by simp [resolvedMetaReq])
    | m0 :: m1 :: tl =>
      refine iff_of_false ?_ (by simp [resolvedMetaReq])
      simp only [deserializeResolved, List.getElem?_cons_zero,
        List.getElem?_cons_succ]
      exact readBytes_ne_panic _ _
  case MYSQL_TYPE_TIMESTAMP2 =>
    match meta with
    | [] => exact iff_of_true (by simp [deserializeResolved]) (by simp [resolvedMetaReq])
    | d :: tl =>
      refine iff_of_false ?_ (by simp [resolvedMetaReq])
      simp only [deserializeResolved, List.getElem?_cons_zero]
      cases h : myTimestampFromBinary buf d with
      | none => simp
      | some q =>
        obtain ⟨⟨sec, usec⟩, rest⟩ := q
        simp only []
        split_ifs <;> simp
  case MYSQL_TYPE_DATETIME2 =>
    match meta with
    | [] => exact iff_of_true (by simp [deserializeResolved]) (by simp [resolvedMetaReq])
    | d :: tl =>
      refine iff_of_false ?_ (by simp [resolvedMetaReq])
      simp only [deserializeResolved, List.getElem?_cons_zero]
      cases h : myDatetimePackedFromBinary buf d with
      | none => simp
      | some q => obtain ⟨⟨packed, usec⟩, rest⟩ := q; simp
  case MYSQL_TYPE_TIME2 =>
    match meta with
    | [] => exact iff_of_true (by simp [deserializeResolved]) (by simp [resolvedMetaReq])
    | d :: tl =>
      refine iff_of_false ?_ (by simp [resolvedMetaReq])
      simp only [deserializeResolved, List.getElem?_cons_zero]
      cases h : myTimePackedFromBinary buf d with
      | none => simp
      | some q => obtain ⟨⟨packed, usec⟩, rest⟩ := q; simp
  case MYSQL_TYPE_JSON =>
    refine iff_of_false ?_ (by simp [resolvedMetaReq])
    simp only [deserializeResolved]
    cases h1 : checkedEatUleN 4 buf with
    | none => simp
    | some q =>
      obtain ⟨jlen, r1⟩ := q
      simp only []
      cases h2 : checkedEat jlen r1 with
      | none => simp
      | some q2 =>
        obtain ⟨sub, rest⟩ := q2
        simp only []
        cases p
        · simp
        · cases parseDiffsLoop sub.length sub <;> simp
  case MYSQL_TYPE_NEWDECIMAL =>
    match meta with
    | [] => exact iff_of_true (by simp [deserializeResolved]) (by simp [resolvedMetaReq])
    | [m0] => exact iff_of_true (by simp [deserializeResolved]) (by simp [resolvedMetaReq])
    | m0 :: m1 :: tl =>
      refine iff_of_false ?_ (by simp [resolvedMetaReq])
      simp only [deserializeResolved, List.getElem?_cons_zero,
        List.getElem?_cons_succ]
      exact decimalReadBin_ne_panic _ _ _
  case MYSQL_TYPE_ENUM =>
    match meta with
    | [] => exact iff_of_true (by simp [deserializeResolved]) (by simp [resolvedMetaReq])
    | [m0] => exact iff_of_true (by simp [deserializeResolved]) (by simp [resolvedMetaReq])
    | m0 :: m1 :: tl =>
      refine iff_of_false ?_ (by simp [resolvedMetaReq])
      simp only [deserializeResolved, List.getElem?_cons_zero,
        List.getElem?_cons_succ]
      split_ifs <;> first | exact readMap_ne_panic _ _ _ | simp
  case MYSQL_TYPE_SET =>
    match meta with
    | [] => exact iff_of_true (by simp [deserializeResolved]) (by simp [resolvedMetaReq])
    | [m0] => exact iff_of_true (by simp [deserializeResolved]) (by simp [resolvedMetaReq])
    | m0 :: m1 :: tl =>
      refine iff_of_false ?_ (by simp [resolvedMetaReq])
      simp only [deserializeResolved, List.getElem?_cons_zero,
        List.getElem?_cons_succ]
      exact readBytes_ne_panic _ _
  case MYSQL_TYPE_TINY_BLOB =>
    match meta with
    | [] => exact iff_of_true (by simp [deserializeResolved]) (by simp [resolvedMetaReq])
    | w :: tl =>
      refine iff_of_false ?_ (by simp [resolvedMetaReq])
      simp only [deserializeResolved, List.getElem?_cons_zero]
      split_ifs <;> first | exact lenPrefixedRead_ne_panic _ _ | simp
  case MYSQL_TYPE_MEDIUM_BLOB =>
    match meta with
    | [] => exact iff_of_true (by simp [deserializeResolved]) (by simp [resolvedMetaReq])
    | w :: tl =>
      refine iff_of_false ?_ (by simp [resolvedMetaReq])
      simp only [deserializeResolved, List.getElem?_cons_zero]
      split_ifs <;> first | exact lenPrefixedRead_ne_panic _ _ | simp
  case MYSQL_TYPE_LONG_BLOB =>
    match meta with
    | [] => exact iff_of_true (by simp [deserializeResolved]) (by simp [resolvedMetaReq])
    | w :: tl =>
      refine iff_of_false ?_ (by simp [resolvedMetaReq])
      simp only [deserializeResolved, List.getElem?_cons_zero]
      split_ifs <;> first | exact lenPrefixedRead_ne_panic _ _ | simp
  case MYSQL_TYPE_BLOB =>
    match meta with
    | [] => exact iff_of_true (by simp [deserializeResolved]) (by simp [resolvedMetaReq])
    | w :: tl =>
      refine iff_of_false ?_ (by simp [resolvedMetaReq])
      simp only [deserializeResolved, List.getElem?_cons_zero]
      split_ifs <;> first | exact lenPrefixedRead_ne_panic _ _ | simp
  case MYSQL_TYPE_VARCHAR =>
    match meta with
    | [] => exact iff_of_true (by simp [deserializeResolved]) (by simp [resolvedMetaReq])
    | [m0] => exact iff_of_true (by simp [deserializeResolved]) (by simp [resolvedMetaReq])
    | m0 :: m1 :: tl =>
      refine iff_of_false ?_ (by simp [resolvedMetaReq])
      simp only [deserializeResolved, List.getElem?_cons_zero,
        List.getElem?_cons_succ]
      split_ifs <;> exact lenPrefixedRead_ne_panic _ _
  case MYSQL_TYPE_VAR_STRING =>
    match meta with
    | [] => exact iff_of_true (by simp [deserializeResolved]) (by simp [resolvedMetaReq])
    | [m0] => exact iff_of_true (by simp [deserializeResolved]) (by simp [resolvedMetaReq])
    | m0 :: m1 :: tl =>
      refine iff_of_false ?_ (by simp [resolvedMetaReq])
      simp only [deserializeResolved, List.getElem?_cons_zero,
        List.getElem?_cons_succ]
      split_ifs <;> exact lenPrefixedRead_ne_panic _ _
  case MYSQL_TYPE_STRING =>
    refine iff_of_false ?_ (by simp [resolvedMetaReq])
    simp only [deserializeResolved]
    split_ifs <;> exact lenPrefixedRead_ne_panic _ _
  case MYSQL_TYPE_DECIMAL =>
    exact iff_of_false (by simp [deserializeResolved]) (by simp [resolvedMetaReq])
  case MYSQL_TYPE_NULL =>
    exact iff_of_false (by simp [deserializeResolved]) (by simp [resolvedMetaReq])
  case MYSQL_TYPE_DATE =>
    exact iff_of_false (by simp [deserializeResolved]) (by simp [resolvedMetaReq])
  case MYSQL_TYPE_UNKNOWN =>
    exact iff_of_false (by simp [deserializeResolved]) (by simp [resolvedMetaReq])
  case MYSQL_TYPE_TYPED_ARRAY =>
    exact iff_of_false (by simp [deserializeResolved]) (by simp [resolvedMetaReq])
  case MYSQL_TYPE_GEOMETRY =>
    exact iff_of_false (by simp [deserializeResolved]) (by simp [resolvedMetaReq])

theorem resolveString_ne_none_of_ne (t : ColumnType) (meta : List Nat)
    (h : t ≠ .MYSQL_TYPE_STRING) : resolveString t meta = some (t, 0) := by
  simp [resolveString, h]

theorem resolveString_cons2_ne_none (m0 m1 : Nat) (tl : List Nat) :
    resolveString .MYSQL_TYPE_STRING (m0 :: m1 :: tl) ≠ none := by
  by_cases h1 : 1 ≤ m0
  · simp only [resolveString, if_pos rfl, List.getElem?_cons_zero,
      List.getElem?_cons_succ, if_pos h1]
    split_ifs <;> simp
  · simp [resolveString, h1, eatU16le]

theorem baseMetaReq_eq_resolved (t : ColumnType)
    (h : t ≠ .MYSQL_TYPE_STRING) : resolvedMetaReq t = baseMetaReq t := by
  cases t <;> simp_all [resolvedMetaReq, baseMetaReq]

theorem resolveString_dispatch_panic_iff (t1 : ColumnType)
    (meta : List Nat) (u p : Bool) (buf : List Nat) :
    (match resolveString t1 meta with
     | none => DecodeResult.panic
     | some (t2, L) => deserializeResolved t2 L meta u p buf) = .panic ↔
      meta.length < baseMetaReq t1 := by
  by_cases hs : t1 = .MYSQL_TYPE_STRING
  · subst hs
    match meta with
    | [] =>
      exact iff_of_true (by simp [resolveString]) (by simp [baseMetaReq])
    | [m0] =>
      refine iff_of_true ?_ (by simp [baseMetaReq])
      by_cases h1 : 1 ≤ m0 <;>
        simp [resolveString, h1, eatU16le]
    | m0 :: m1 :: tl =>
      refine iff_of_false ?_ (by simp [baseMetaReq])
      cases hr : resolveString .MYSQL_TYPE_STRING (m0 :: m1 :: tl) with
      | none => exact absurd hr (resolveString_cons2_ne_none m0 m1 tl)
      | some pair =>
        obtain ⟨t2, L⟩ := pair
        simp only []
        intro hpan
        rw [deserializeResolved_panic_iff] at hpan
        have hle := resolvedMetaReq_le_two t2
        simp only [List.length_cons] at hpan
        omega
  · rw [resolveString_ne_none_of_ne t1 meta hs]
    simp only []
    rw [deserializeResolved_panic_iff, baseMetaReq_eq_resolved t1 hs]

theorem deserialize_eq_dispatch (t : ColumnType)
    (h : t ≠ .MYSQL_TYPE_TYPED_ARRAY) (meta : List Nat) (u p : Bool)
    (buf : List Nat) :
    deserialize t meta u p buf =
      (match resolveString t meta with
       | none => DecodeResult.panic
       | some (t2, L) => deserializeResolved t2 L meta u p buf) := by
  simp [deserialize, resolveTypedArray, h]

theorem metaLenOk_of_ne (t : ColumnType) (meta : List Nat)
    (h : t ≠ .MYSQL_TYPE_TYPED_ARRAY) :
    metaLenOk t meta = decide (baseMetaReq t ≤ meta.length) := by
  cases t <;> simp_all [metaLenOk]

/-- C9 counterexample: two inputs satisfying the claim's stated metadata
precondition on which `deserialize` nevertheless panics — STRING with the
single metadata byte 0 (the first-byte-0 branch reads a 16-bit length from
the metadata slice itself), and a typed-array placeholder whose single
metadata byte resolves to ENUM (the ENUM arm then reads the second metadata
byte). -/
theorem metadata_panic_counterexample :
    claimedMetaReqOk .MYSQL_TYPE_STRING [0] = true ∧
    deserialize .MYSQL_TYPE_STRING [0] false false [] = .panic ∧
    claimedMetaReqOk .MYSQL_TYPE_TYPED_ARRAY [247] = true ∧
    deserialize .MYSQL_TYPE_TYPED_ARRAY [247] false false [] = .panic := by
  refine ⟨by decide, by decide, by decide, by decide⟩

/-- C9 (amended): `deserialize` reads metadata bytes by direct indexing
without bounds checks, and panics with an out-of-bounds index (instead of
returning a decode error) exactly when the metadata is shorter than the type
requires: at least 1 byte for TYPED_ARRAY, TIMESTAMP2/DATETIME2/TIME2 and
the BLOB family, at least 2 bytes for BIT, NEWDECIMAL, ENUM, SET,
VARCHAR/VAR_STRING, at least 2 bytes for STRING regardless of the first
byte's value, and for TYPED_ARRAY additionally the requirement of the
resolved element type. -/
theorem deserialize_metadata_panic (t : ColumnType) (meta : List Nat)
    (u p : Bool) (buf : List Nat) :
    deserialize t meta u p buf = .panic ↔ metaLenOk t meta = false := by
  by_cases ht : t = .MYSQL_TYPE_TYPED_ARRAY
  · subst ht
    cases meta with
    | nil => simp [deserialize, resolveTypedArray, metaLenOk]
    | cons b ms =>
      have key := resolveString_dispatch_panic_iff
        ((ColumnType.tryFrom b).getD .MYSQL_TYPE_TYPED_ARRAY) (b :: ms) u p
        buf
      rw [show deserialize .MYSQL_TYPE_TYPED_ARRAY (b :: ms) u p buf =
        (match resolveString
            ((ColumnType.tryFrom b).getD .MYSQL_TYPE_TYPED_ARRAY)
            (b :: ms) with
         | none => DecodeResult.panic
         | some (t2, L) => deserializeResolved t2 L (b :: ms) u p buf)
        from by simp [deserialize, resolveTypedArray]]
      rw [key]
      simp only [metaLenOk, List.getElem?_cons_zero,
        decide_eq_false_iff_not]
      omega
  · rw [deserialize_eq_dispatch t ht meta u p buf,
      resolveString_dispatch_panic_iff, metaLenOk_of_ne t meta ht]
    simp only [decide_eq_false_iff_not]
    omega
